import Mathlib

/-!
Shallow embedding of the t8-client signal decoding and spectrum synthesis
pipeline (src/src/t8_client/functions.py, waveform.py, spectrum.py and the
codec dispatch table in src/data/waveform_decode.py / spectrum_decode.py).

Modelling conventions:
* Python floats are modelled exactly: sample values decoded from int16 are
  `Int` (the int16 -> float32 conversion in `np.array(..., dtype="f")` is
  exact on that range); calibrated amplitudes, axes and spectra live in a
  `Field`, instantiated with `ℚ` for executable checks and with `ℝ` where the
  source uses `np.hanning` / `scipy.fft` (cosine, `sqrt`, complex
  exponentials).
* `b64decode` and `zlib.decompress` are Python standard-library externals,
  not repository code; the decoders are therefore modelled on the
  decompressed byte buffer (`List Nat`, bytes reduced mod 256), exactly where
  `unpack` starts to read in the source.
* Python exceptions raised by the pipeline are modelled by `Except T8Error`:
  the explicit `ValueError("Waveform must be windowed before applying zero
  padding.")` is `stateError`; a `KeyError` from a missing mandatory dict key
  is `keyError`; the numpy failure of `2 ** np.ceil(np.log2(0)).astype(int)`
  (log2 of zero gives -inf, the int cast of -inf gives a negative value, and
  an integer raised to a negative integer power raises `ValueError`) is
  `arithError`.
* Mutating methods (`hanning_window`, `zero_padding`, `apply_filter`) become
  functions returning the updated object; a raise leaves the original object
  untouched, which purity gives for free.
-/

/-- Errors raised by the pipeline, named after the spec's taxonomy:
`stateError` for an operation invoked out of order, `keyError` for a missing
mandatory payload field, `arithError` for the numpy error produced by the
zero-length padding computation. -/
inductive T8Error where
  | stateError
  | keyError
  | arithError
deriving DecidableEq, Repr

/-- Little-endian signed 16-bit read of two bytes, as `struct.unpack("h", b)`
does on the x86 hosts this code targets: `lo + 256*hi`, reinterpreted as a
signed 16-bit value. Inputs are reduced mod 256 since Python bytes are
0..255. -/
def toInt16 (lo hi : Nat) : Int :=
  let u : Nat := lo % 256 + 256 * (hi % 256)
  if u < 32768 then (u : Int) else (u : Int) - 65536

/-- Function `zint_to_float` (src/src/t8_client/functions.py:127-148) after the
standard-library `b64decode`/`decompress` calls: for the decompressed byte
buffer `d` it returns `[unpack("h", d[i*2:(i+1)*2])[0] for i in
range(int(len(d)/2))]`.  The `int(len(d)/2)` floor means an odd trailing byte
is silently ignored; there is no failure path.  The values are int16, exactly
representable by the float32 the source converts them to. -/
def zint_to_float (d : List Nat) : List Int :=
  (List.range (d.length / 2)).map fun i => toInt16 (d.getD (2 * i) 0) (d.getD (2 * i + 1) 0)

/-- The three decoder functions held by the `decode_format` dict in
src/data/waveform_decode.py:48 and src/data/spectrum_decode.py:48. -/
inductive CodecFn where
  | zintToFloat
  | zlibToFloat
  | b64ToFloat
deriving DecidableEq, Repr

/-- Dispatch table `decode_format` (src/data/waveform_decode.py:48): the dict
`{"zint": zint_to_float, "zlib": zlib_to_float, "b64": b64_to_float}`.
Looking up an unknown key in a Python dict raises `KeyError`, modelled as
`none` (the spec's `ConfigurationError`). -/
def decode_format (fmt : String) : Option CodecFn :=
  if fmt = "zint" then some CodecFn.zintToFloat
  else if fmt = "zlib" then some CodecFn.zlibToFloat
  else if fmt = "b64" then some CodecFn.b64ToFloat
  else none

/-- Model of `np.linspace(start, stop, num)`: `num` evenly spaced points from `start`
to `stop` inclusive; point `i` is `start + i * (stop - start) / (num - 1)`.
For `num = 1` numpy returns `[start]`, which the formula also gives here
since field division by zero is zero. -/
def linspace {α : Type} [Field α] (start stop : α) (num : Nat) : List α :=
  List.ofFn fun i : Fin num => start + (i : α) * ((stop - start) / ((num : α) - 1))

/-- A waveform (src/src/t8_client/waveform.py:13-39): time axis, calibrated
amplitudes, sample rate, and the two lazily computed derived arrays,
`None` until produced. -/
structure Waveform (α : Type) where
  time : List α
  amp : List α
  srate : α
  windowed_amps : Option (List α)
  padded_amps : Option (List α)

/-- A spectrum (src/src/t8_client/spectrum.py:11-33): frequency axis,
amplitudes, and the lazily computed filtered view, `None` until produced. -/
structure Spectrum (α : Type) where
  freq : List α
  amp : List α
  filtered_freq : Option (List α)
  filtered_amp : Option (List α)

/-- The fields `Waveform.from_api` reads from the fetched JSON payload
(src/src/t8_client/waveform.py:92-94): `sample_rate` mandatory, `factor`
optional, `data` modelled as the decompressed byte buffer. -/
structure WaveResponse (α : Type) where
  sample_rate : α
  factor : Option α
  data : List Nat

/-- The fields `Spectrum.from_api` reads from the fetched JSON payload
(src/src/t8_client/spectrum.py:86-89): `min_freq` optional (`r.get` with
default 0), `max_freq` and `factor` mandatory (`r[...]`), `data` as the
decompressed byte buffer. -/
structure SpectrumResponse (α : Type) where
  min_freq : Option α
  max_freq : α
  factor : Option α
  data : List Nat

/-- The pure tail of `Waveform.from_api` (src/src/t8_client/waveform.py:92-102):
`factor = float(r.get("factor", 1))`, `wave = zint_to_float(raw) * factor`,
`time = np.linspace(0, len(wave)/srate, len(wave)) * 1000`. -/
def Waveform.from_api {α : Type} [Field α] (r : WaveResponse α) : Waveform α :=
  let factor : α := r.factor.getD 1
  let wave : List α := (zint_to_float r.data).map fun v => (Int.cast v : α) * factor
  let n : Nat := wave.length
  { time := (linspace (0 : α) ((n : α) / r.sample_rate) n).map fun t => t * 1000
    amp := wave
    srate := r.sample_rate
    windowed_amps := none
    padded_amps := none }

/-- The pure tail of `Spectrum.from_api` (src/src/t8_client/spectrum.py:86-97):
`fmin = r.get("min_freq", 0)`, `fmax = r["max_freq"]`, `factor = r["factor"]`
(raising `KeyError` when absent), `sp = zint_to_float(raw) * factor`,
`freq = np.linspace(fmin, fmax, len(sp))`. -/
def Spectrum.from_api {α : Type} [Field α] (r : SpectrumResponse α) :
    Except T8Error (Spectrum α) :=
  match r.factor with
  | none => .error .keyError
  | some factor =>
    let fmin : α := r.min_freq.getD 0
    let sp : List α := (zint_to_float r.data).map fun v => (Int.cast v : α) * factor
    .ok { freq := linspace fmin r.max_freq sp.length
          amp := sp
          filtered_freq := none
          filtered_amp := none }

/-- Model of `np.hanning(M)` (numpy): the empty array for `M = 0`, `[1]` for `M = 1`,
otherwise `w[i] = 0.5 - 0.5*cos(2*pi*i/(M-1))` for `i = 0..M-1`. -/
noncomputable def hanning (M : Nat) : List Real :=
  if M = 1 then [1]
  else List.ofFn fun i : Fin M => 1 / 2 - 1 / 2 * Real.cos (2 * Real.pi * (i : Real) / ((M : Real) - 1))

/-- Method `Waveform.hanning_window` (src/src/t8_client/waveform.py:149-156):
`self.windowed_amps = self.amp * np.hanning(len(self.amp))`. -/
noncomputable def Waveform.hanning_window (w : Waveform Real) : Waveform Real :=
  { w with windowed_amps := some (List.zipWith (fun a b => a * b) w.amp (hanning w.amp.length)) }

/-- Method `Waveform.zero_padding` (src/src/t8_client/waveform.py:158-168): raises
`ValueError` if `windowed_amps is None`; otherwise computes
`padded_len = 2 ** np.ceil(np.log2(n)).astype(int)` and pads with trailing
zeros to that length.  For `n >= 1` the padded length is `2 ^ ceil(log2 n)`,
i.e. `2 ^ Nat.clog 2 n`.  For `n = 0`, `np.log2(0)` is `-inf`, its int cast
is a negative value and `2 ** negative_int` raises `ValueError` in numpy, so
the call fails: modelled by `arithError`. -/
def Waveform.zero_padding {α : Type} [Zero α] (w : Waveform α) : Except T8Error (Waveform α) :=
  match w.windowed_amps with
  | none => .error .stateError
  | some ws =>
    if ws.length = 0 then .error .arithError
    else
      let n : Nat := ws.length
      let paddedLen : Nat := 2 ^ Nat.clog 2 n
      .ok { w with padded_amps := some (ws ++ List.replicate (paddedLen - n) (0 : α)) }

/-- Boolean-mask selection, the semantics of numpy fancy indexing `xs[mask]`:
keep `xs[i]` exactly when `mask[i]` is true (positionally). -/
def maskSelect {α : Type} (mask : List Bool) (xs : List α) : List α :=
  (mask.zip xs).filterMap fun p => if p.1 then some p.2 else none

/-- Method `Spectrum.apply_filter` (src/src/t8_client/spectrum.py:147-161):
`mask = (freq >= fmin) & (freq <= fmax)`; `filtered_freq = freq[mask]`;
`filtered_amp = amp[mask]`.  The mask is computed from `freq` and applied
positionally to both arrays; `freq` and `amp` themselves are not touched. -/
def Spectrum.apply_filter {α : Type} [LinearOrder α] (s : Spectrum α) (fmin fmax : α) :
    Spectrum α :=
  let mask : List Bool := s.freq.map fun f => decide (fmin ≤ f) && decide (f ≤ fmax)
  { s with filtered_freq := some (maskSelect mask s.freq)
           filtered_amp := some (maskSelect mask s.amp) }

/-- The discrete Fourier transform computed by `scipy.fft.fft` on a real
input of length `M`: bin `k` is `sum_j x[j] * exp(-2*pi*I*j*k/M)`. -/
noncomputable def dft (x : List Real) (k : Nat) : Complex :=
  ∑ j ∈ Finset.range x.length,
    ((x.getD j 0 : Real) : Complex) *
      Complex.exp (-(2 * (Real.pi : Complex) * Complex.I * (j : Complex) * (k : Complex)) / (x.length : Complex))

/-- Model of `scipy.fft.fftfreq(M, d)`: bin `i` maps to `i/(d*M)` for `i <= (M-1)/2`
and to `(i-M)/(d*M)` for the wrap-around negative-frequency tail. -/
noncomputable def fftfreq (M : Nat) (d : Real) : List Real :=
  List.ofFn fun i : Fin M =>
    (if (i : Nat) ≤ (M - 1) / 2 then ((i : Nat) : Real) else ((i : Nat) : Real) - (M : Real)) / (d * (M : Real))

/-- Method `Waveform.create_spectrum` (src/src/t8_client/waveform.py:170-205):
window if not yet windowed, pad if not yet padded (which can fail), then
`amps = np.abs(fft(padded) * 2 * np.sqrt(2)) / len(...)`,
`freqs = fftfreq(len(padded), 1/srate)`, build the Spectrum and
`apply_filter(fmin, fmax)`.  The `getD []` default is unreachable: after the
padding step `padded_amps` is always set. -/
noncomputable def Waveform.create_spectrum (w : Waveform Real) (fmin fmax : Real) :
    Except T8Error (Spectrum Real) :=
  let w1 := if w.windowed_amps.isNone then w.hanning_window else w
  (if w1.padded_amps.isNone then w1.zero_padding else .ok w1).map fun w2 =>
    let p : List Real := w2.padded_amps.getD []
    let M : Nat := p.length
    let amps : List Real := (List.range M).map fun i =>
      Complex.abs (dft p i * 2 * ((Real.sqrt 2 : Real) : Complex)) / (M : Real)
    let freqs : List Real := fftfreq M (1 / w.srate)
    Spectrum.apply_filter
      { freq := freqs, amp := amps, filtered_freq := none, filtered_amp := none } fmin fmax

/-- Waveform payload used as C1 counterexample: sample rate 1 and two decoded
samples (bytes for the int16 values 1 and 2). -/
def wrTwoSamples : WaveResponse Rat :=
  { sample_rate := 1, factor := some 1, data := [1, 0, 2, 0] }

/-- Spectrum payload without a `factor` field, used as C2 counterexample. -/
def srNoFactor : SpectrumResponse Rat :=
  { min_freq := none, max_freq := 100, factor := none, data := [1, 0] }

/-- Waveform payload without a `factor` field, used for the C2 witness. -/
def wrNoFactor : WaveResponse Rat :=
  { sample_rate := 1, factor := none, data := [1, 0, 2, 0] }

/-- Waveform whose windowed samples are already present, used for the C5
witness. -/
def wvFiveWindowed : Waveform Rat :=
  { time := [], amp := [], srate := 1,
    windowed_amps := some [1, 2, 3, 4, 5], padded_amps := none }

/-- Zero-sample waveform used as the C6 counterexample. -/
def wvEmptyAmp : Waveform Real :=
  { time := [], amp := [], srate := 2, windowed_amps := none, padded_amps := none }

/-- Zero-sample waveform used as the C10 failing input. -/
def wvZeroSamples : Waveform Real :=
  { time := [], amp := [], srate := 1, windowed_amps := none, padded_amps := none }

/-- Spectrum with frequencies and amplitudes `[0, 1, 2, 3, 4, 5]`, the
spec's band-filter example, used for the C8 witness. -/
def spSixBins : Spectrum Rat :=
  { freq := [0, 1, 2, 3, 4, 5], amp := [0, 1, 2, 3, 4, 5],
    filtered_freq := none, filtered_amp := none }

/-- Waveform with one sample, already windowed and padded, used for the C7
witness (padded length 1 = 2 ^ 0). -/
def wvOnePadded : Waveform Real :=
  { time := [], amp := [1], srate := 1, windowed_amps := some [1], padded_amps := some [1] }

/-- C3 counterexample: the claim says decoding fails with `DecodeError` when
the decompressed byte length is odd, but `zint_to_float` has no failure path:
on the 3-byte buffer `[0, 0, 1]` it succeeds and returns the single sample
`[0]`, silently ignoring the trailing byte. -/
theorem zint_odd_length_succeeds : zint_to_float [0, 0, 1] = [0] := by decide

/-- C3 (amended): decoding never fails; for every decompressed buffer,
codec A returns exactly `floor(len / 2)` samples, so a trailing odd byte is
dropped rather than reported. -/
theorem zint_total_floor_length (d : List Nat) :
    (zint_to_float d).length = d.length / 2 := by
  simp [zint_to_float]

/-- C4: for a decompressed buffer of even length `2 * k`, codec A returns
exactly `k` values, and value `j` is the little-endian signed 16-bit integer
stored in byte pair `(2j, 2j+1)`. -/
theorem zint_decodes_int16_pairs (d : List Nat) (k : Nat) (h : d.length = 2 * k) :
    (zint_to_float d).length = k ∧
      ∀ j, j < k →
        (zint_to_float d).getD j 0 = toInt16 (d.getD (2 * j) 0) (d.getD (2 * j + 1) 0) := by
  have hk : d.length / 2 = k := by omega
  constructor
  · simp [zint_to_float, hk]
  · intro j hj
    have hj' : j < (List.range (d.length / 2)).length := by simpa [hk] using hj
    simp [zint_to_float, List.getD_eq_getElem?_getD, List.getElem?_map, hk,
      List.getElem?_range hj]

/-- C4 witness: the buffer `[232, 3, 12, 254]` holds the little-endian int16
values 1000 and -500; codec A decodes it to `[1000, -500]` (the spec's
literal example, exact under the int16-to-float32 conversion). -/
theorem zint_decodes_int16_pairs_witness :
    ((zint_to_float [232, 3, 12, 254]).length = 2 ∧
      ∀ j, j < 2 →
        (zint_to_float [232, 3, 12, 254]).getD j 0 =
          toInt16 ([232, 3, 12, 254].getD (2 * j) 0) ([232, 3, 12, 254].getD (2 * j + 1) 0)) ∧
    zint_to_float [232, 3, 12, 254] = [1000, -500] :=
  ⟨zint_decodes_int16_pairs [232, 3, 12, 254] 2 (by decide), by decide⟩

/-- C9: the codec selection table maps each of the three known identifiers to
its documented decoder and yields no decoder (a `KeyError`, the spec's
`ConfigurationError`) exactly on identifiers outside `{zint, zlib, b64}`. -/
theorem decode_format_selection (fmt : String) :
    (decode_format fmt = none ↔ fmt ≠ "zint" ∧ fmt ≠ "zlib" ∧ fmt ≠ "b64") ∧
    decode_format "zint" = some CodecFn.zintToFloat ∧
    decode_format "zlib" = some CodecFn.zlibToFloat ∧
    decode_format "b64" = some CodecFn.b64ToFloat := by
  refine ⟨?_, by decide, by decide, by decide⟩
  unfold decode_format
  split_ifs with h1 h2 h3 <;> simp_all

/-- C1 counterexample: with sample rate 1 and N = 2 samples, the code's
`np.linspace(0, N/srate, N) * 1000` yields `time[1] = 2000` ms, while the
claimed formula `time[i] = (i / sr) * 1000` predicts `1000` ms. -/
theorem waveform_time_axis_counterexample :
    (Waveform.from_api wrTwoSamples).time.getD 1 0 = 2000 ∧
    ((2000 : Rat) ≠ ((1 : Rat) / (1 : Rat)) * 1000) := by
  have h : zint_to_float [1, 0, 2, 0] = [1, 2] := by decide
  constructor
  · simp [Waveform.from_api, wrTwoSamples, linspace, h, List.ofFn_succ]
    norm_num
  · norm_num

/-- The length of a linspace is the requested point count. -/
theorem linspace_length {α : Type} [Field α] (a b : α) (n : Nat) :
    (linspace a b n).length = n := by
  simp only [linspace, List.length_ofFn]

/-- Closed form of linspace point `i`. -/
theorem linspace_getD {α : Type} [Field α] (a b : α) (n : Nat) (i : Nat) (h : i < n) :
    (linspace a b n).getD i 0 = a + (i : α) * ((b - a) / ((n : α) - 1)) := by
  rw [List.getD_eq_getElem _ _ (by simpa only [linspace_length] using h)]
  simp only [linspace, List.getElem_ofFn]

/-- The time axis built by `Waveform.from_api`, written without the
intermediate let bindings: a linspace over the decoded sample count, scaled
to milliseconds. -/
theorem from_api_time_eq {α : Type} [Field α] (r : WaveResponse α) :
    (Waveform.from_api r).time =
      (linspace (0 : α) (((zint_to_float r.data).length : α) / r.sample_rate)
        (zint_to_float r.data).length).map fun t => t * 1000 := by
  simp only [Waveform.from_api, List.length_map]

/-- C1 (amended): the calibrated time axis has exactly `N` points, and point
`i` is `i * (N / sr) / (N - 1) * 1000` milliseconds (numpy linspace from `0`
to `N/sr` inclusive over `N` points); for `N = 1` the subtraction `N - 1`
vanishes and the axis degenerates to `[0]` (field division by zero is zero,
matching numpy's single-point linspace). -/
theorem waveform_time_axis_formula {α : Type} [Field α] (r : WaveResponse α) :
    (Waveform.from_api r).time.length = (zint_to_float r.data).length ∧
    ∀ i, i < (zint_to_float r.data).length →
      (Waveform.from_api r).time.getD i 0 =
        (i : α) * (((zint_to_float r.data).length : α) / r.sample_rate) /
          (((zint_to_float r.data).length : α) - 1) * 1000 := by
  constructor
  · rw [from_api_time_eq, List.length_map, linspace_length]
  · intro i hi
    have hb : i < ((linspace (0 : α)
        (((zint_to_float r.data).length : α) / r.sample_rate)
        (zint_to_float r.data).length).map fun t => t * 1000).length := by
      rw [List.length_map, linspace_length]; exact hi
    rw [from_api_time_eq, List.getD_eq_getElem _ _ hb, List.getElem_map,
      ← List.getD_eq_getElem _ _ (by simpa only [linspace_length] using hi),
      linspace_getD _ _ _ _ hi]
    ring

/-- C1 witness: the amended formula applied to the concrete two-sample
payload with sample rate 1. -/
theorem waveform_time_axis_formula_witness :
    (Waveform.from_api wrTwoSamples).time.length = (zint_to_float wrTwoSamples.data).length ∧
    ∀ i, i < (zint_to_float wrTwoSamples.data).length →
      (Waveform.from_api wrTwoSamples).time.getD i 0 =
        (i : Rat) * (((zint_to_float wrTwoSamples.data).length : Rat) / wrTwoSamples.sample_rate) /
          (((zint_to_float wrTwoSamples.data).length : Rat) - 1) * 1000 :=
  waveform_time_axis_formula wrTwoSamples

/-- C2 counterexample: the claim says construction succeeds with a default
factor of 1.0 for spectrum payloads too, but `Spectrum.from_api` reads
`r["factor"]` unconditionally, so a payload without `factor` fails with a
`KeyError` instead of succeeding. -/
theorem spectrum_from_api_missing_factor_fails :
    Spectrum.from_api srNoFactor = .error .keyError := rfl

/-- C2 (amended): when the `factor` field is absent, the waveform constructor
defaults it to 1 and returns the decoded samples unscaled, while the spectrum
constructor fails with a `KeyError`. -/
theorem factor_default_waveform_only {α : Type} [Field α] (r : WaveResponse α)
    (s : SpectrumResponse α) (hw : r.factor = none) (hs : s.factor = none) :
    (Waveform.from_api r).amp = (zint_to_float r.data).map (fun v => (Int.cast v : α)) ∧
    Spectrum.from_api s = .error .keyError := by
  constructor
  · simp only [Waveform.from_api, hw, Option.getD_none, mul_one]
  · simp only [Spectrum.from_api, hs]

/-- C2 witness: the amended statement at the concrete factorless payloads. -/
theorem factor_default_waveform_only_witness :
    (Waveform.from_api wrNoFactor).amp =
      (zint_to_float wrNoFactor.data).map (fun v => (Int.cast v : Rat)) ∧
    Spectrum.from_api srNoFactor = .error .keyError :=
  factor_default_waveform_only wrNoFactor srNoFactor rfl rfl

/-- Once windowed samples exist, `zero_padding` either hits the zero-length
arithmetic failure or appends the computed number of zeros. -/
theorem zero_padding_of_windowed {α : Type} [Zero α] (w : Waveform α) (ws : List α)
    (h : w.windowed_amps = some ws) :
    w.zero_padding =
      if ws.length = 0 then .error T8Error.arithError
      else .ok { w with
        padded_amps := some (ws ++ List.replicate (2 ^ Nat.clog 2 ws.length - ws.length) 0) } := by
  unfold Waveform.zero_padding
  rw [h]

/-- C5: on a windowed sequence of length `N >= 1`, `zero_padding` succeeds
and pads with trailing zeros to length `2 ^ ceil(log2 N)` (the next power of
two at or above `N`, so a length that is already a power of two is kept),
leaving the first `N` elements unchanged. -/
theorem zero_padding_pads_to_next_pow2 {α : Type} [Zero α] (w : Waveform α)
    (ws : List α) (hw : w.windowed_amps = some ws) (hn : 1 ≤ ws.length) :
    ∃ p, w.zero_padding = .ok { w with padded_amps := some p } ∧
      p.length = 2 ^ Nat.clog 2 ws.length ∧
      p.take ws.length = ws ∧
      (∀ x ∈ p.drop ws.length, x = 0) ∧
      ((∃ k, ws.length = 2 ^ k) → p.length = ws.length) := by
  have hle : ws.length ≤ 2 ^ Nat.clog 2 ws.length :=
    Nat.le_pow_clog (by norm_num) ws.length
  refine ⟨ws ++ List.replicate (2 ^ Nat.clog 2 ws.length - ws.length) 0, ?_, ?_, ?_, ?_, ?_⟩
  · rw [zero_padding_of_windowed w ws hw, if_neg (by omega : ¬ ws.length = 0)]
  · rw [List.length_append, List.length_replicate]; omega
  · exact List.take_left ws _
  · intro x hx
    rw [List.drop_left] at hx
    exact List.eq_of_mem_replicate hx
  · rintro ⟨k, hk⟩
    rw [List.length_append, List.length_replicate, hk, Nat.clog_pow 2 k (by norm_num)]
    omega

/-- C5 witness: padding the concrete windowed sequence `[1, 2, 3, 4, 5]`
(length 5, padding to the next power of two, 8), together with the literal
facts that length 5 pads to 8 and length 8 stays 8. -/
theorem zero_padding_pads_to_next_pow2_witness :
    (∃ p, wvFiveWindowed.zero_padding = .ok { wvFiveWindowed with padded_amps := some p } ∧
      p.length = 2 ^ Nat.clog 2 (([1, 2, 3, 4, 5] : List Rat)).length ∧
      p.take ([1, 2, 3, 4, 5] : List Rat).length = [1, 2, 3, 4, 5] ∧
      (∀ x ∈ p.drop ([1, 2, 3, 4, 5] : List Rat).length, x = 0) ∧
      ((∃ k, (([1, 2, 3, 4, 5] : List Rat)).length = 2 ^ k) →
        p.length = ([1, 2, 3, 4, 5] : List Rat).length)) ∧
    2 ^ Nat.clog 2 5 = 8 ∧ 2 ^ Nat.clog 2 8 = 8 :=
  ⟨zero_padding_pads_to_next_pow2 wvFiveWindowed [1, 2, 3, 4, 5] rfl (by decide),
    by norm_num [Nat.clog], by norm_num [Nat.clog]⟩

/-- The window array always has the length it was asked for. -/
theorem hanning_length (M : Nat) : (hanning M).length = M := by
  unfold hanning
  split_ifs with h
  · rw [h]; rfl
  · exact List.length_ofFn _

/-- Windowing preserves the sample count: the windowed array is the
element-wise product of the samples with a window of the same length. -/
theorem hanning_window_windowed_length (w : Waveform Real) :
    ∃ ws, w.hanning_window.windowed_amps = some ws ∧ ws.length = w.amp.length := by
  refine ⟨_, rfl, ?_⟩
  rw [List.length_zipWith, hanning_length, Nat.min_self]

/-- C6 (amended): `zero_padding` fails with the ordering `StateError` exactly
when `windowed_amps` has not been produced; after windowing it succeeds
exactly when the waveform has at least one sample (on a zero-sample waveform
the padding-length computation fails with a different, arithmetic error, not
the ordering error). -/
theorem zero_padding_state_error_iff (w : Waveform Real) :
    (w.zero_padding = .error T8Error.stateError ↔ w.windowed_amps = none) ∧
    ((∃ w2, w.hanning_window.zero_padding = .ok w2) ↔ w.amp ≠ []) := by
  constructor
  · unfold Waveform.zero_padding
    cases h : w.windowed_amps with
    | none => simp
    | some ws =>
      by_cases hlen : ws.length = 0 <;> simp [hlen]
  · obtain ⟨ws, hws, hlen⟩ := hanning_window_windowed_length w
    rw [zero_padding_of_windowed _ _ hws]
    by_cases hamp : w.amp = []
    · rw [if_pos (by rw [hlen, hamp]; rfl)]
      simp [hamp]
    · rw [if_neg (fun h0 => hamp (List.length_eq_zero.mp (hlen ▸ h0)))]
      simp [hamp]

/-- C6 counterexample: after windowing a zero-sample waveform the windowed
array is produced (so the claim says padding must succeed), yet
`zero_padding` still fails - with the numpy arithmetic error from
`2 ** ceil(log2 0)`, not with the ordering error. -/
theorem padding_after_window_can_fail :
    wvEmptyAmp.hanning_window.windowed_amps ≠ none ∧
    wvEmptyAmp.hanning_window.zero_padding = .error T8Error.arithError := by
  constructor
  · simp [Waveform.hanning_window]
  · rfl

/-- C10: evaluating the code at the failing input: on a waveform with zero
samples, windowing succeeds (empty windowed array) but the padding step does
not complete - `np.log2(0)` is `-inf` and the resulting negative integer
exponent makes `2 ** ...` raise - contradicting the requirement that
zero-length input be handled by an explicit rule rather than undefined
arithmetic. -/
theorem zero_sample_pipeline_raises :
    wvZeroSamples.hanning_window.zero_padding = .error T8Error.arithError := rfl

/-- Mask selection over a cons pair keeps or drops the head by the head of
the mask. -/
theorem maskSelect_cons {α : Type} (b : Bool) (mask : List Bool) (x : α) (xs : List α) :
    maskSelect (b :: mask) (x :: xs) =
      if b then x :: maskSelect mask xs else maskSelect mask xs := by
  cases b <;> simp [maskSelect, List.zip_cons_cons, List.filterMap_cons]

/-- Selecting a list by the mask computed from itself is a filter. -/
theorem maskSelect_map_self {α : Type} (f : α → Bool) (xs : List α) :
    maskSelect (xs.map f) xs = xs.filter f := by
  induction xs with
  | nil => rfl
  | cons x xs ih =>
    rw [List.map_cons, maskSelect_cons, ih]
    cases hf : f x <;> simp [List.filter_cons, hf]

/-- Selecting a second list of the same length by a mask computed from the
first is the positional pair filter, projected to the second component. -/
theorem maskSelect_map_zip {α β : Type} (f : α → Bool) :
    ∀ (xs : List α) (ys : List β), xs.length = ys.length →
      maskSelect (xs.map f) ys = ((xs.zip ys).filter fun q => f q.1).map Prod.snd := by
  intro xs
  induction xs with
  | nil =>
    intro ys h
    cases ys with
    | nil => rfl
    | cons y ys => exact absurd h (by simp)
  | cons x xs ih =>
    intro ys h
    cases ys with
    | nil => exact absurd h (by simp)
    | cons y ys =>
      rw [List.map_cons, maskSelect_cons, List.zip_cons_cons, List.filter_cons,
        ih ys (by simpa using h)]
      cases hf : f x <;> simp [hf]

/-- The pair filter projected to the first component is the plain filter of
the first list, when lengths agree. -/
theorem filter_zip_map_fst {α β : Type} (f : α → Bool) :
    ∀ (xs : List α) (ys : List β), xs.length = ys.length →
      ((xs.zip ys).filter fun q => f q.1).map Prod.fst = xs.filter f := by
  intro xs
  induction xs with
  | nil =>
    intro ys h
    cases ys with
    | nil => rfl
    | cons y ys => exact absurd h (by simp)
  | cons x xs ih =>
    intro ys h
    cases ys with
    | nil => exact absurd h (by simp)
    | cons y ys =>
      rw [List.zip_cons_cons, List.filter_cons, List.filter_cons]
      cases hf : f x <;> simp [hf, ih ys (by simpa using h)]

/-- C8: `apply_filter` stores in the filtered view exactly the
`(frequency, amplitude)` pairs with `fmin <= frequency <= fmax` (inclusive),
in original order, with both filtered arrays of equal length, and leaves the
unfiltered arrays untouched. -/
theorem apply_filter_selects_band {α : Type} [LinearOrder α] (s : Spectrum α)
    (fmin fmax : α) (h : s.freq.length = s.amp.length) :
    (s.apply_filter fmin fmax).filtered_freq =
      some ((((s.freq.zip s.amp).filter fun q => decide (fmin ≤ q.1) && decide (q.1 ≤ fmax))).map
        Prod.fst) ∧
    (s.apply_filter fmin fmax).filtered_amp =
      some ((((s.freq.zip s.amp).filter fun q => decide (fmin ≤ q.1) && decide (q.1 ≤ fmax))).map
        Prod.snd) ∧
    ((((s.freq.zip s.amp).filter fun q => decide (fmin ≤ q.1) && decide (q.1 ≤ fmax))).map
        Prod.fst).length =
      ((((s.freq.zip s.amp).filter fun q => decide (fmin ≤ q.1) && decide (q.1 ≤ fmax))).map
        Prod.snd).length ∧
    (s.apply_filter fmin fmax).freq = s.freq ∧
    (s.apply_filter fmin fmax).amp = s.amp := by
  refine ⟨?_, ?_, by simp, rfl, rfl⟩
  · show some (maskSelect (s.freq.map fun f => decide (fmin ≤ f) && decide (f ≤ fmax)) s.freq) = _
    rw [maskSelect_map_self, ← filter_zip_map_fst _ s.freq s.amp h]
  · show some (maskSelect (s.freq.map fun f => decide (fmin ≤ f) && decide (f ≤ fmax)) s.amp) = _
    rw [maskSelect_map_zip _ s.freq s.amp h]

/-- C8 witness: the band-filter statement at the spec's literal example,
plus the literal filtered outputs: filtering `[0..5]` to `[2, 4]` yields
frequencies `[2, 3, 4]` and amplitudes `[2, 3, 4]`. -/
theorem apply_filter_selects_band_witness :
    ((spSixBins.apply_filter 2 4).filtered_freq =
      some ((((spSixBins.freq.zip spSixBins.amp).filter
        fun q => decide ((2 : Rat) ≤ q.1) && decide (q.1 ≤ (4 : Rat)))).map Prod.fst) ∧
    (spSixBins.apply_filter 2 4).filtered_amp =
      some ((((spSixBins.freq.zip spSixBins.amp).filter
        fun q => decide ((2 : Rat) ≤ q.1) && decide (q.1 ≤ (4 : Rat)))).map Prod.snd) ∧
    ((((spSixBins.freq.zip spSixBins.amp).filter
        fun q => decide ((2 : Rat) ≤ q.1) && decide (q.1 ≤ (4 : Rat)))).map Prod.fst).length =
      ((((spSixBins.freq.zip spSixBins.amp).filter
        fun q => decide ((2 : Rat) ≤ q.1) && decide (q.1 ≤ (4 : Rat)))).map Prod.snd).length ∧
    (spSixBins.apply_filter 2 4).freq = spSixBins.freq ∧
    (spSixBins.apply_filter 2 4).amp = spSixBins.amp) ∧
    (spSixBins.apply_filter 2 4).filtered_freq = some [2, 3, 4] ∧
    (spSixBins.apply_filter 2 4).filtered_amp = some [2, 3, 4] :=
  ⟨apply_filter_selects_band spSixBins 2 4 rfl, by
    constructor <;> norm_num [spSixBins, Spectrum.apply_filter, maskSelect,
      List.filterMap, List.zip_cons_cons]⟩

/-- Evaluating `create_spectrum` on a waveform whose padded samples are already present:
no padding step runs, and the result is the normalized DFT magnitudes with
the fftfreq axis, band-filtered. -/
theorem create_spectrum_of_padded (w : Waveform Real) (p : List Real) (fmin fmax : Real)
    (hp : w.padded_amps = some p) :
    w.create_spectrum fmin fmax = .ok (Spectrum.apply_filter
      { freq := fftfreq p.length (1 / w.srate)
        amp := (List.range p.length).map fun i =>
          Complex.abs (dft p i * 2 * ((Real.sqrt 2 : Real) : Complex)) / (p.length : Real)
        filtered_freq := none
        filtered_amp := none } fmin fmax) := by
  unfold Waveform.create_spectrum
  have h1 : (if w.windowed_amps = none then w.hanning_window else w).padded_amps = some p := by
    split <;> exact hp
  simp [h1, Except.map]

/-- C7: for a waveform whose padded sequence has length `M = 2 ^ k`, the
synthesized spectrum has an amplitude array of length `M` whose bin `i` is
`|DFT(padded)[i]| * 2 * sqrt(2) / M`. -/
theorem create_spectrum_normalization (w : Waveform Real) (p : List Real) (k : Nat)
    (fmin fmax : Real) (hp : w.padded_amps = some p) (_hpow : p.length = 2 ^ k) :
    ∃ s, w.create_spectrum fmin fmax = .ok s ∧
      s.amp.length = p.length ∧
      ∀ i, i < p.length →
        s.amp.getD i 0 = Complex.abs (dft p i) * 2 * Real.sqrt 2 / (p.length : Real) := by
  refine ⟨_, create_spectrum_of_padded w p fmin fmax hp, ?_, ?_⟩
  · show ((List.range p.length).map _).length = _
    rw [List.length_map, List.length_range]
  · intro i hi
    show ((List.range p.length).map fun i =>
      Complex.abs (dft p i * 2 * ((Real.sqrt 2 : Real) : Complex)) / (p.length : Real)).getD i 0 = _
    rw [List.getD_eq_getElem _ _ (by simpa using hi), List.getElem_map, List.getElem_range,
      map_mul, map_mul, Complex.abs_two, Complex.abs_ofReal,
      abs_of_nonneg (Real.sqrt_nonneg 2)]

/-- C7 witness: the normalization statement at the concrete single-sample
padded waveform. -/
theorem create_spectrum_normalization_witness :
    ∃ s, wvOnePadded.create_spectrum 0 1 = .ok s ∧
      s.amp.length = ([1] : List Real).length ∧
      ∀ i, i < ([1] : List Real).length →
        s.amp.getD i 0 =
          Complex.abs (dft [1] i) * 2 * Real.sqrt 2 / ((([1] : List Real).length : Nat) : Real) :=
  create_spectrum_normalization wvOnePadded [1] 0 0 1 rfl (by decide)
